import Mathlib

set_option linter.unusedVariables false

/-!
Verification of the HTTP client module of the Quack Companion editor
extension (source file `src/util/quack.ts`).

The module talks to a remote service through the platform `fetch`
primitive. We embed each exported function as a pure Lean function whose
input is the outcome of its `fetch` call, supplied as an explicit
argument: a call either resolves with a response value, or rejects with
an error carrying a `name` field. Per the WHATWG fetch specification, a
network-level connection failure (DNS failure, connection refusal, ...)
rejects the promise with an error named `TypeError`; HTTP error statuses
do NOT reject, they resolve with a response whose `ok` field is false.
`Response.ok` is true exactly when the status lies in 200..299.

Observable side effects (callback invocations, `console.error` logging,
`vscode.window.showErrorMessage` popups) are recorded as explicit event
lists in the returned run record; a thrown exception is an
`Except.error` carrying the message of the `Error` object thrown.

The TypeScript code decodes JSON bodies with unchecked `as` casts, which
perform no runtime validation; accordingly a non-streaming response body
is modelled as already-decoded data of the expected shape.
-/

namespace Quack

/-- Guideline record, from `interface QuackGuideline` (quack.ts:10-16). -/
structure QuackGuideline where
  id : Int
  content : String
  creator_id : Int
  created_at : String
  updated_at : String
deriving DecidableEq, Repr

/-- Chat message, from `interface ChatMessage` (quack.ts:30-33). -/
structure ChatMessage where
  role : String
  content : String
deriving DecidableEq, Repr

/-- `Response.ok`: the HTTP status lies in the 2xx range (WHATWG fetch). -/
def respOk (status : Nat) : Bool :=
  200 ≤ status && status ≤ 299

/-- Outcome of one `fetch` call: the promise either resolves with a
response value `ρ`, or rejects with an error whose `name` is recorded
(a network-level connection failure rejects with name `TypeError`). -/
inductive FetchOutcome (ρ : Type) where
  | success (response : ρ)
  | netError (name : String)
deriving DecidableEq, Repr

/-- `verifyQuackEndpoint` (quack.ts:46-65): probe the validation route;
true on a 2xx (`response.ok`) or 401 response, false on any other
status, false when the `fetch` call rejects. Only the status of the
response is inspected. -/
def verifyQuackEndpoint (f : FetchOutcome Nat) : Bool :=
  match f with
  | .success status =>
      if respOk status then true
      else if status == 401 then true
      else false
  | .netError _ => false

/-- `getAPIAccessStatus` (quack.ts:67-94): classify the authenticated
probe of the validation route. `response.ok` gives "ok", then 404 gives
"unknown-route", then 401 gives "expired-token", any other status gives
"other"; a rejected `fetch` gives "unreachable-endpoint" when the error
is named `TypeError`, otherwise "other". -/
def getAPIAccessStatus (f : FetchOutcome Nat) : String :=
  match f with
  | .success status =>
      if respOk status then "ok"
      else if status == 404 then "unknown-route"
      else if status == 401 then "expired-token"
      else "other"
  | .netError name =>
      if name == "TypeError" then "unreachable-endpoint"
      else "other"

/-- A non-streaming response: its HTTP status and its JSON-decoded body
(the `as` cast in the source performs no runtime validation, so the body
is modelled as already-decoded data of the expected shape; it is only
consumed on the `response.ok` branch). -/
structure CrudResponse (α : Type) where
  status : Nat
  data : α
deriving DecidableEq, Repr

/-- Observable run of a non-streaming operation: the
`vscode.window.showErrorMessage` texts shown, in order, and the final
result — the decoded value returned, or the message of the `Error`
thrown to the caller. -/
structure CrudRun (α : Type) where
  messages : List String
  result : Except String α
deriving Repr

/-- The popup text `Quack API returned status code N` shown on a
non-success status (quack.ts:175-177 and analogues). -/
def statusMsg (status : Nat) : String :=
  "Quack API returned status code " ++ toString status

/-- `fetchGuidelines` (quack.ts:158-190): GET the guidelines collection.
On `response.ok`, return the decoded array. On any other status, show
the status popup and throw; the throw is caught by the same
function's catch block, which shows the generic connectivity popup and
rethrows `Unable to fetch guidelines`. A rejected `fetch` goes straight
to the catch block. -/
def fetchGuidelines (f : FetchOutcome (CrudResponse (List QuackGuideline))) :
    CrudRun (List QuackGuideline) :=
  match f with
  | .success r =>
      if respOk r.status then
        { messages := [], result := .ok r.data }
      else
        { messages := [statusMsg r.status,
            "Failed to fetch repository details. Make sure the repository exists and is public."],
          result := .error "Unable to fetch guidelines" }
  | .netError _ =>
      { messages :=
          ["Failed to fetch repository details. Make sure the repository exists and is public."],
        result := .error "Unable to fetch guidelines" }

/-- `postGuideline` (quack.ts:239-273): POST `{content}` to the
guidelines collection; same response handling as `fetchGuidelines`, with
its own popup and error texts. -/
def postGuideline (content : String) (f : FetchOutcome (CrudResponse QuackGuideline)) :
    CrudRun QuackGuideline :=
  match f with
  | .success r =>
      if respOk r.status then
        { messages := [], result := .ok r.data }
      else
        { messages := [statusMsg r.status, "Failed to create guideline."],
          result := .error "Unable to create guideline" }
  | .netError _ =>
      { messages := ["Failed to create guideline."],
        result := .error "Unable to create guideline" }

/-- `patchGuideline` (quack.ts:275-310): PATCH `{content}` onto one
guideline; same response handling, with its own texts. -/
def patchGuideline (id : Int) (content : String)
    (f : FetchOutcome (CrudResponse QuackGuideline)) : CrudRun QuackGuideline :=
  match f with
  | .success r =>
      if respOk r.status then
        { messages := [], result := .ok r.data }
      else
        { messages := [statusMsg r.status, "Failed to patch guideline."],
          result := .error "Unable to patch guideline" }
  | .netError _ =>
      { messages := ["Failed to patch guideline."],
        result := .error "Unable to patch guideline" }

/-- `deleteGuideline` (quack.ts:312-345): DELETE one guideline; same
response handling (its popup and error texts say `patch`, faithfully
reproduced from the source). -/
def deleteGuideline (id : Int) (f : FetchOutcome (CrudResponse QuackGuideline)) :
    CrudRun QuackGuideline :=
  match f with
  | .success r =>
      if respOk r.status then
        { messages := [], result := .ok r.data }
      else
        { messages := [statusMsg r.status, "Failed to patch guideline."],
          result := .error "Unable to patch guideline" }
  | .netError _ =>
      { messages := ["Failed to patch guideline."],
        result := .error "Unable to patch guideline" }

/-- One `reader.read()` interaction of the chat stream loop, as seen by
the processing code (quack.ts:213-222): `chunkOk c` is a chunk whose
bytes decode and `JSON.parse` to an object whose `message.content` is
`c`; `chunkBad` is a chunk whose processing throws (a `JSON.parse`
failure, or a missing `message` field); `readRaise` means `reader.read()`
itself rejects. The end of the list models the `done: true` read. -/
inductive ReadOutcome where
  | chunkOk (content : String)
  | chunkBad
  | readRaise
deriving DecidableEq, Repr

/-- Response to the chat POST: its HTTP status and its optional
streaming body (`response.body` may be null). -/
structure ChatResponse where
  status : Nat
  body : Option (List ReadOutcome)
deriving DecidableEq, Repr

/-- Observable events of one `postChatMessage` run, in order. -/
inductive ChatEvent where
  | chunkCb (content : String)
  | endCb
  | logError
  | showError (msg : String)
deriving DecidableEq, Repr

/-- Full observable run of `postChatMessage`: the events emitted
(callback invocations, the stream-catch `console.error`, popups), whether
`response.body.getReader()` was called, whether `reader.releaseLock()`
was called, and whether the returned promise resolves or rejects. -/
structure ChatRun where
  events : List ChatEvent
  lockAcquired : Bool
  lockReleased : Bool
  result : Except String Unit
deriving Repr

/-- The `while (true)` read loop (quack.ts:213-222): consume reads until
the `done` break, a processing throw, or a read rejection. Returns the
callback events emitted, and whether an exception escaped to the
surrounding catch block. -/
def readLoop : List ReadOutcome → List ChatEvent × Bool
  | [] => ([], false)
  | .chunkOk c :: rest =>
      let r := readLoop rest
      (.chunkCb c :: r.1, r.2)
  | .chunkBad :: _ => ([], true)
  | .readRaise :: _ => ([], true)

/-- `postChatMessage` (quack.ts:192-237): POST the conversation, then,
when a body is present, acquire its reader and run the read loop inside
`try/catch/finally`; on a clean loop exit call `onEnd`, on an escaped
exception only `console.error` it; the finally clause releases the
reader lock; the promise then resolves either way. When the body is
null, nothing happens and the promise resolves. When the `fetch` itself
rejects, the outer catch logs, shows the `Invalid API request.` popup
and throws `Unable to send chat message`. The HTTP status of a resolved
response is never inspected. -/
def postChatMessage (messages : List ChatMessage) (f : FetchOutcome ChatResponse) :
    ChatRun :=
  match f with
  | .netError _ =>
      { events := [.showError "Invalid API request."]
        lockAcquired := false
        lockReleased := false
        result := .error "Unable to send chat message" }
  | .success resp =>
      match resp.body with
      | none =>
          { events := [], lockAcquired := false, lockReleased := false
            result := .ok () }
      | some reads =>
          let r := readLoop reads
          { events := r.1 ++ (if r.2 then [.logError] else [.endCb])
            lockAcquired := true
            lockReleased := true
            result := .ok () }

/-- A read outcome on which the loop body throws: a chunk that fails to
process, or a rejected read. -/
def isBadRead : ReadOutcome → Bool
  | .chunkOk _ => false
  | .chunkBad => true
  | .readRaise => true

/-- The request URL built by `new URL(path, base).toString()`: the pair
of the path joined and the base it is resolved against. Every path used
by the client is absolute, so the WHATWG resolution keeps the origin of
`base` and replaces its path; the pair captures exactly the two inputs
of that resolution. -/
structure URLJoin where
  path : String
  base : String
deriving DecidableEq, Repr

/-- Route of `verifyQuackEndpoint` (quack.ts:49-52). -/
def verifyRouteURL (endpointURL : String) : URLJoin :=
  ⟨"/api/v1/login/validate", endpointURL⟩

/-- Route of `getAPIAccessStatus` (quack.ts:71-74). -/
def accessRouteURL (endpointURL : String) : URLJoin :=
  ⟨"/api/v1/login/validate", endpointURL⟩

/-- Route of `getToken` (quack.ts:121). -/
def tokenRouteURL (endpointURL : String) : URLJoin :=
  ⟨"/api/v1/login/token", endpointURL⟩

/-- Route of `fetchGuidelines` (quack.ts:162). -/
def guidelinesListURL (endpointURL : String) : URLJoin :=
  ⟨"/api/v1/guidelines/", endpointURL⟩

/-- Route of `postGuideline` (quack.ts:244). -/
def guidelineCreateURL (endpointURL : String) : URLJoin :=
  ⟨"/api/v1/guidelines", endpointURL⟩

/-- Route of `patchGuideline` (quack.ts:281), with the id interpolated
into the template string. -/
def guidelinePatchURL (id : Int) (endpointURL : String) : URLJoin :=
  ⟨"/api/v1/guidelines/" ++ toString id, endpointURL⟩

/-- Route of `deleteGuideline` (quack.ts:317). -/
def guidelineDeleteURL (id : Int) (endpointURL : String) : URLJoin :=
  ⟨"/api/v1/guidelines/" ++ toString id, endpointURL⟩

/-- Route of `postChatMessage` (quack.ts:199). -/
def chatRouteURL (endpointURL : String) : URLJoin :=
  ⟨"/api/v1/code/chat", endpointURL⟩

/-- The client operations that issue a request, with their route
parameters. -/
inductive Route where
  | verifyEndpoint
  | checkAccess
  | getToken
  | listGuidelines
  | createGuideline
  | patchGuidelineRoute (id : Int)
  | deleteGuidelineRoute (id : Int)
  | chat
deriving DecidableEq, Repr

/-- The request URL each operation passes to `fetch`, as built in the
source. -/
def requestURL : Route → String → URLJoin
  | .verifyEndpoint, base => verifyRouteURL base
  | .checkAccess, base => accessRouteURL base
  | .getToken, base => tokenRouteURL base
  | .listGuidelines, base => guidelinesListURL base
  | .createGuideline, base => guidelineCreateURL base
  | .patchGuidelineRoute id, base => guidelinePatchURL id base
  | .deleteGuidelineRoute id, base => guidelineDeleteURL id base
  | .chat, base => chatRouteURL base

/-- The fixed path of each operation, as listed in the external
interface table of the service. -/
def fixedPath : Route → String
  | .verifyEndpoint => "/api/v1/login/validate"
  | .checkAccess => "/api/v1/login/validate"
  | .getToken => "/api/v1/login/token"
  | .listGuidelines => "/api/v1/guidelines/"
  | .createGuideline => "/api/v1/guidelines"
  | .patchGuidelineRoute id => "/api/v1/guidelines/" ++ toString id
  | .deleteGuidelineRoute id => "/api/v1/guidelines/" ++ toString id
  | .chat => "/api/v1/code/chat"

end Quack

namespace Quack

/-- Helper: a stream of well-formed chunks runs the loop to the `done`
break, emitting one chunk callback per chunk, with no escaped
exception. -/
theorem readLoop_map_chunkOk (contents : List String) :
    readLoop (contents.map ReadOutcome.chunkOk) =
      (contents.map ChatEvent.chunkCb, false) := by
  induction contents with
  | nil => rfl
  | cons c rest ih => simp [readLoop, ih]

/-- Helper: a bad read after a run of well-formed chunks stops the loop
there with an escaped exception; nothing after it is consumed. -/
theorem readLoop_bad_stops (pre : List String) (b : ReadOutcome)
    (rest : List ReadOutcome) (hb : isBadRead b = true) :
    readLoop (pre.map ReadOutcome.chunkOk ++ b :: rest) =
      (pre.map ChatEvent.chunkCb, true) := by
  induction pre with
  | nil =>
      cases b with
      | chunkOk c => simp [isBadRead] at hb
      | chunkBad => rfl
      | readRaise => rfl
  | cons c cs ih => simp [readLoop, ih]

/-- Helper: the read loop itself never emits the end callback. -/
theorem readLoop_no_endCb (reads : List ReadOutcome) :
    (readLoop reads).1.count ChatEvent.endCb = 0 := by
  induction reads with
  | nil => rfl
  | cons x rest ih =>
      cases x with
      | chunkOk c => simp [readLoop, List.count_cons, ih]
      | chunkBad => rfl
      | readRaise => rfl

/-- Helper: an exception escapes the read loop exactly when the stream
contains a read on which the loop body throws. -/
theorem readLoop_errored_iff (reads : List ReadOutcome) :
    (readLoop reads).2 = true ↔ ∃ x ∈ reads, isBadRead x = true := by
  induction reads with
  | nil => simp [readLoop]
  | cons x rest ih =>
      cases x with
      | chunkOk c => simp [readLoop, isBadRead, ih]
      | chunkBad => simp [readLoop, isBadRead]
      | readRaise => simp [readLoop, isBadRead]

/-- Claim C1 (code_bug evidence): `postChatMessage` never inspects the
HTTP status of a resolved response. A POST answered with HTTP 500 and a
streaming body is processed exactly like a success: the chunk callback
and the end callback are both invoked and the promise resolves, instead
of failing with an `ApiError(500)` with neither callback invoked as the
specification requires. -/
theorem postChat_streams_http_500 :
    postChatMessage [] (.success ⟨500, some [.chunkOk "oops"]⟩) =
      { events := [.chunkCb "oops", .endCb], lockAcquired := true,
        lockReleased := true, result := .ok () } := rfl

/-- Claim C2: `getAPIAccessStatus` classifies every fetch outcome into
exactly one of the five statuses: 2xx gives "ok", 404 gives
"unknown-route", 401 gives "expired-token", a network-level connection
failure (a rejection named `TypeError`) gives "unreachable-endpoint",
every other status gives "other", and every input lands in the
five-element set. -/
theorem getAPIAccessStatus_five_way_classification :
    (∀ status : Nat, respOk status = true →
      getAPIAccessStatus (.success status) = "ok") ∧
    getAPIAccessStatus (.success 404) = "unknown-route" ∧
    getAPIAccessStatus (.success 401) = "expired-token" ∧
    getAPIAccessStatus (.netError "TypeError") = "unreachable-endpoint" ∧
    (∀ status : Nat, respOk status = false → status ≠ 404 → status ≠ 401 →
      getAPIAccessStatus (.success status) = "other") ∧
    (∀ f : FetchOutcome Nat,
      getAPIAccessStatus f ∈
        ["ok", "unknown-route", "expired-token", "unreachable-endpoint", "other"]) := by
  refine ⟨?_, rfl, rfl, rfl, ?_, ?_⟩
  · intro status h
    simp [getAPIAccessStatus, h]
  · intro status h h404 h401
    simp [getAPIAccessStatus, h, h404, h401]
  · intro f
    cases f with
    | success status =>
        simp only [getAPIAccessStatus]
        split
        · simp
        · split
          · simp
          · split
            · simp
            · simp
    | netError name =>
        simp only [getAPIAccessStatus]
        split
        · simp
        · simp

/-- Witness for C2: concrete classifications through the theorem. -/
theorem getAPIAccessStatus_five_way_classification_witness :
    getAPIAccessStatus (.success 200) = "ok" ∧
    getAPIAccessStatus (.success 500) = "other" :=
  ⟨getAPIAccessStatus_five_way_classification.1 200 (by decide),
   getAPIAccessStatus_five_way_classification.2.2.2.2.1 500
     (by decide) (by decide) (by decide)⟩

/-- Claim C4: `verifyQuackEndpoint` is true exactly on a resolved
response with a 2xx or 401 status, and false on every rejected fetch; in
particular it is never false on a 401 response. -/
theorem verifyQuackEndpoint_true_iff :
    (∀ status : Nat,
      verifyQuackEndpoint (.success status) = true ↔
        (respOk status = true ∨ status = 401)) ∧
    (∀ name : String, verifyQuackEndpoint (.netError name) = false) := by
  constructor
  · intro status
    cases hok : respOk status with
    | true => simp [verifyQuackEndpoint, hok]
    | false =>
        by_cases h401 : status = 401
        · subst h401
          decide
        · simp [verifyQuackEndpoint, hok, h401]
  · intro name
    rfl

/-- Witness for C4: a 401 response verifies the endpoint. -/
theorem verifyQuackEndpoint_true_iff_witness :
    verifyQuackEndpoint (.success 401) = true :=
  (verifyQuackEndpoint_true_iff.1 401).mpr (Or.inr rfl)

/-- Claim C8: every operation requests the URL obtained by joining its
fixed path onto the caller-supplied base endpoint URL, and nothing
else — the base of every request URL is exactly the argument passed by
the caller. -/
theorem requestURL_joins_fixed_path :
    ∀ (r : Route) (base : String), requestURL r base = ⟨fixedPath r, base⟩ := by
  intro r base
  cases r <;> rfl

/-- Claim C9: when the resolved response carries no body (null), the
chat operation emits no event at all — no chunk callback, no end
callback, no popup — and the promise resolves normally. -/
theorem postChat_null_body_silent :
    ∀ (msgs : List ChatMessage) (status : Nat),
      postChatMessage msgs (.success ⟨status, none⟩) =
        { events := [], lockAcquired := false, lockReleased := false,
          result := .ok () } := by
  intro msgs status
  rfl

/-- Claim C3 counterexample: with a stream whose first chunk fails to
parse and whose second chunk is well-formed, the run emits only the
logged error — the subsequent chunk is never read and its callback never
fires, refuting the statement that streaming continues to attempt
further reads after a parse failure. -/
theorem postChat_parse_abort_counterexample :
    (postChatMessage [] (.success ⟨200, some [.chunkBad, .chunkOk "lo"]⟩)).events
        = [.logError] ∧
      ChatEvent.chunkCb "lo" ∉
        (postChatMessage [] (.success ⟨200, some [.chunkBad, .chunkOk "lo"]⟩)).events := by
  exact ⟨rfl, by decide⟩

/-- Claim C3 (amended): when a chunk fails to parse mid-stream, the
failure is swallowed — only logged, never propagated (the promise still
resolves) and never retried — but the read loop exits: the chunks
delivered before the failure have already been relayed, no further read
is attempted, nothing after the bad chunk is processed, and the end
callback is not invoked. -/
theorem postChat_parse_fail_swallowed_aborts :
    ∀ (msgs : List ChatMessage) (status : Nat) (pre : List String)
      (rest : List ReadOutcome),
      postChatMessage msgs
          (.success ⟨status, some (pre.map .chunkOk ++ .chunkBad :: rest)⟩) =
        { events := pre.map ChatEvent.chunkCb ++ [.logError],
          lockAcquired := true, lockReleased := true, result := .ok () } := by
  intro msgs status pre rest
  simp [postChatMessage, readLoop_bad_stops pre .chunkBad rest rfl]

/-- Claim C5: a stream of well-formed chunks followed by a clean
end-of-stream relays each decoded content in arrival order through the
chunk callback, then fires the end callback exactly once, and the
promise resolves with no error. -/
theorem postChat_clean_stream :
    ∀ (msgs : List ChatMessage) (status : Nat) (contents : List String),
      postChatMessage msgs (.success ⟨status, some (contents.map .chunkOk)⟩) =
        { events := contents.map ChatEvent.chunkCb ++ [.endCb],
          lockAcquired := true, lockReleased := true, result := .ok () } := by
  intro msgs status contents
  simp [postChatMessage, readLoop_map_chunkOk]

/-- Claim C6: each guideline CRUD operation is atomic from the caller
viewpoint: on a 2xx status it returns the fully decoded record (or
sequence) with no error popup; on any other status it throws, after a
popup carrying the observed status code and the generic connectivity
popup; on a rejected fetch it throws the same error after the generic
popup alone. No outcome mixes success and failure. -/
theorem guidelineCrud_atomic :
    (∀ r : CrudResponse (List QuackGuideline), respOk r.status = true →
      fetchGuidelines (.success r) = { messages := [], result := .ok r.data }) ∧
    (∀ r : CrudResponse (List QuackGuideline), respOk r.status = false →
      fetchGuidelines (.success r) =
        { messages := [statusMsg r.status,
            "Failed to fetch repository details. Make sure the repository exists and is public."],
          result := .error "Unable to fetch guidelines" }) ∧
    (∀ name : String, (fetchGuidelines (.netError name)).result
        = .error "Unable to fetch guidelines") ∧
    (∀ (content : String) (r : CrudResponse QuackGuideline), respOk r.status = true →
      postGuideline content (.success r) = { messages := [], result := .ok r.data }) ∧
    (∀ (content : String) (r : CrudResponse QuackGuideline), respOk r.status = false →
      postGuideline content (.success r) =
        { messages := [statusMsg r.status, "Failed to create guideline."],
          result := .error "Unable to create guideline" }) ∧
    (∀ (content name : String), (postGuideline content (.netError name)).result
        = .error "Unable to create guideline") ∧
    (∀ (id : Int) (content : String) (r : CrudResponse QuackGuideline),
      respOk r.status = true →
      patchGuideline id content (.success r) = { messages := [], result := .ok r.data }) ∧
    (∀ (id : Int) (content : String) (r : CrudResponse QuackGuideline),
      respOk r.status = false →
      patchGuideline id content (.success r) =
        { messages := [statusMsg r.status, "Failed to patch guideline."],
          result := .error "Unable to patch guideline" }) ∧
    (∀ (id : Int) (content name : String),
      (patchGuideline id content (.netError name)).result
        = .error "Unable to patch guideline") ∧
    (∀ (id : Int) (r : CrudResponse QuackGuideline), respOk r.status = true →
      deleteGuideline id (.success r) = { messages := [], result := .ok r.data }) ∧
    (∀ (id : Int) (r : CrudResponse QuackGuideline), respOk r.status = false →
      deleteGuideline id (.success r) =
        { messages := [statusMsg r.status, "Failed to patch guideline."],
          result := .error "Unable to patch guideline" }) ∧
    (∀ (id : Int) (name : String), (deleteGuideline id (.netError name)).result
        = .error "Unable to patch guideline") := by
  refine ⟨?_, ?_, ?_, ?_, ?_, ?_, ?_, ?_, ?_, ?_, ?_, ?_⟩
  · intro r h
    simp [fetchGuidelines, h]
  · intro r h
    simp [fetchGuidelines, h]
  · intro name
    rfl
  · intro content r h
    simp [postGuideline, h]
  · intro content r h
    simp [postGuideline, h]
  · intro content name
    rfl
  · intro id content r h
    simp [patchGuideline, h]
  · intro id content r h
    simp [patchGuideline, h]
  · intro id content name
    rfl
  · intro id r h
    simp [deleteGuideline, h]
  · intro id r h
    simp [deleteGuideline, h]
  · intro id name
    rfl

/-- Witness for C6: a 204 list call succeeds with the decoded sequence;
a 500 create call fails with the status popup and the create error. -/
theorem guidelineCrud_atomic_witness :
    fetchGuidelines (.success ⟨204, []⟩) = { messages := [], result := .ok [] } ∧
    postGuideline "c" (.success ⟨500, ⟨1, "c", 2, "t0", "t1"⟩⟩) =
      { messages := [statusMsg 500, "Failed to create guideline."],
        result := .error "Unable to create guideline" } :=
  ⟨guidelineCrud_atomic.1 ⟨204, []⟩ (by decide),
   guidelineCrud_atomic.2.2.2.2.1 "c" ⟨500, ⟨1, "c", 2, "t0", "t1"⟩⟩ (by decide)⟩

/-- Claim C7: whenever the chat operation acquires the stream reader, it
also releases its lock — on a clean completion, on the early break, and
when reading or processing throws. -/
theorem postChat_reader_lock_released :
    ∀ (msgs : List ChatMessage) (f : FetchOutcome ChatResponse),
      (postChatMessage msgs f).lockAcquired = true →
      (postChatMessage msgs f).lockReleased = true := by
  intro msgs f
  cases f with
  | netError name => intro h; simp [postChatMessage] at h
  | success resp =>
      cases resp with
      | mk status body =>
          cases body with
          | none => intro h; simp [postChatMessage] at h
          | some reads => intro h; simp [postChatMessage]

/-- Witness for C7: the reader acquired for an immediately-done stream
is released. -/
theorem postChat_reader_lock_released_witness :
    (postChatMessage [] (.success ⟨200, some []⟩)).lockReleased = true :=
  postChat_reader_lock_released [] (.success ⟨200, some []⟩) rfl

/-- Claim C10: the end callback fires at most once on every run, and
zero times whenever some read of the stream throws during reading or
processing — mid-stream failure is never signaled through the
clean-completion callback. -/
theorem postChat_onEnd_at_most_once :
    (∀ (msgs : List ChatMessage) (f : FetchOutcome ChatResponse),
      (postChatMessage msgs f).events.count ChatEvent.endCb ≤ 1) ∧
    (∀ (msgs : List ChatMessage) (status : Nat) (reads : List ReadOutcome),
      (∃ x ∈ reads, isBadRead x = true) →
      (postChatMessage msgs (.success ⟨status, some reads⟩)).events.count
          ChatEvent.endCb = 0) := by
  constructor
  · intro msgs f
    cases f with
    | netError name => simp [postChatMessage]
    | success resp =>
        cases resp with
        | mk status body =>
            cases body with
            | none => simp [postChatMessage]
            | some reads =>
                simp only [postChatMessage]
                rw [List.count_append, readLoop_no_endCb reads]
                cases herr : (readLoop reads).2 with
                | true => simp [herr]
                | false => simp [herr]
  · intro msgs status reads hex
    have h2 : (readLoop reads).2 = true := (readLoop_errored_iff reads).2 hex
    simp only [postChatMessage]
    rw [List.count_append, readLoop_no_endCb reads, h2]
    simp

/-- Witness for C10: a stream whose only read throws fires no end
callback. -/
theorem postChat_onEnd_at_most_once_witness :
    (postChatMessage [] (.success ⟨200, some [.chunkBad]⟩)).events.count
        ChatEvent.endCb = 0 :=
  postChat_onEnd_at_most_once.2 [] 200 [.chunkBad] ⟨.chunkBad, by decide, rfl⟩

end Quack
